import Mathlib

/- Verification development for the CryptoBot backtesting core.

The Python sources are embedded shallowly:
  * floats are modelled as exact rationals (ℚ);
  * the engine's mutable state (balance, equity, open position, trade
    ledger, equity curve, risk-manager daily pnl) is threaded explicitly
    through an `EngineState`;
  * the strategy contract is abstracted at the row level: each prepared
    bar carries the row fields the engine reads (`close`, the index
    timestamp, the `signal` column, the result of `validate_signal` on
    that row, and the audit string from `get_entry_reason`), exactly the
    interface `BacktestEngine` consumes;
  * the moving-average crossover signal of `strategies/indicators.py`
    is embedded over series with missing values (`Option ℚ`), with
    pandas comparison semantics (a comparison involving NaN is false);
    fallible pandas expressions return `Option`, with `none` for a
    raised exception (unary `~` on an object-dtype series containing a
    missing value raises TypeError).

All definitions are translated from `src/` (backtest_engine.py,
risk_manager.py, position_sizer.py, base_strategy.py, indicators.py,
constants.py, settings.py); the single spec-following reference
definition (`crossoverSpec`) is clearly marked. -/

namespace CryptoBot

/-- Exit reasons from `src/config/constants.py` (`ExitReason`). -/
inductive ExitReason where
  | signal
  | stop_loss
  | take_profit
  | trailing_stop
  | manual
  | risk_limit
  | circuit_breaker
deriving DecidableEq, Repr

/-- String value of an exit reason (the `.value` of the Python str-enum). -/
def ExitReason.value : ExitReason → String
  | .signal => "signal"
  | .stop_loss => "stop_loss"
  | .take_profit => "take_profit"
  | .trailing_stop => "trailing_stop"
  | .manual => "manual"
  | .risk_limit => "risk_limit"
  | .circuit_breaker => "circuit_breaker"

/-- Configuration fields of `src/config/settings.py` consumed by the core
(risk manager, position sizer, backtest engine). -/
structure Settings where
  max_position_size_percent : ℚ
  position_sizing_method : String
  stop_loss_percent : ℚ
  take_profit_percent : ℚ
  trailing_stop_percent : ℚ
  use_trailing_stop : Bool
  max_concurrent_positions : ℕ
  daily_loss_limit_percent : ℚ
  enable_circuit_breaker : Bool
  circuit_breaker_volatility_threshold : ℚ
deriving DecidableEq, Repr

/-- Default values from `settings.py` / `constants.py` (fixed sizing, 10%
max position, 2% stop, 4% take profit, 1.5% trailing stop enabled, 3
concurrent positions, 5 daily loss limit, circuit breaker on at 10). -/
def defaultSettings : Settings :=
  { max_position_size_percent := 10
    position_sizing_method := "fixed"
    stop_loss_percent := 2
    take_profit_percent := 4
    trailing_stop_percent := 3/2
    use_trailing_stop := true
    max_concurrent_positions := 3
    daily_loss_limit_percent := 5
    enable_circuit_breaker := true
    circuit_breaker_volatility_threshold := 10 }

/-- RiskManager._is_daily_loss_limit_exceeded (risk_manager.py:140-142):
`self.daily_pnl < -abs(self.settings.daily_loss_limit_percent)`.  Note
that the realized `daily_pnl` (an amount of quote currency) is compared
against the bare percentage number. -/
def is_daily_loss_limit_exceeded (st : Settings) (daily_pnl : ℚ) : Bool :=
  daily_pnl < -|st.daily_loss_limit_percent|

/-- RiskManager.can_open_position (risk_manager.py:26-54).  The mutable
risk state (`daily_pnl`, `circuit_breaker_active`) is passed explicitly. -/
def can_open_position (st : Settings) (daily_pnl : ℚ) (circuit_breaker_active : Bool)
    (current_positions : ℕ) (account_balance proposed_position_size : ℚ) :
    Bool × String :=
  if st.max_concurrent_positions ≤ current_positions then
    (false, "Max concurrent positions reached (" ++ toString current_positions ++ ")")
  else if is_daily_loss_limit_exceeded st daily_pnl then
    (false, "Daily loss limit exceeded")
  else if circuit_breaker_active then
    (false, "Circuit breaker active")
  else if account_balance < proposed_position_size then
    (false, "Insufficient balance")
  else
    (true, "OK")

/-- RiskManager.calculate_stop_loss (risk_manager.py:56-68). -/
def calculate_stop_loss (st : Settings) (entry_price : ℚ) (side : String) : ℚ :=
  let stop_pct := st.stop_loss_percent / 100
  if side = "buy" then entry_price * (1 - stop_pct) else entry_price * (1 + stop_pct)

/-- RiskManager.calculate_take_profit (risk_manager.py:70-81). -/
def calculate_take_profit (st : Settings) (entry_price : ℚ) (side : String) : ℚ :=
  let tp_pct := st.take_profit_percent / 100
  if side = "buy" then entry_price * (1 + tp_pct) else entry_price * (1 - tp_pct)

/-- RiskManager.update_trailing_stop (risk_manager.py:83-101). -/
def update_trailing_stop (st : Settings)
    (entry_price current_price current_stop : ℚ) (side : String) : ℚ :=
  if !st.use_trailing_stop then current_stop
  else
    let trail_pct := st.trailing_stop_percent / 100
    if side = "buy" then max current_stop (current_price * (1 - trail_pct))
    else min current_stop (current_price * (1 + trail_pct))

/-- RiskManager.should_close_position (risk_manager.py:103-128). -/
def should_close_position (entry_price current_price stop_loss take_profit : ℚ)
    (side : String) : Bool × Option ExitReason :=
  if side = "buy" then
    if current_price ≤ stop_loss then (true, some .stop_loss)
    else if take_profit ≤ current_price then (true, some .take_profit)
    else (false, none)
  else
    if stop_loss ≤ current_price then (true, some .stop_loss)
    else if current_price ≤ take_profit then (true, some .take_profit)
    else (false, none)

/-- PositionSizer._calculate_fixed_size (position_sizer.py:80-102). -/
def calculate_fixed_size (account_balance risk_percent : ℚ) : ℚ :=
  account_balance * (risk_percent / 100)

/-- PositionSizer._calculate_volatility_based_size (position_sizer.py:104-149). -/
def calculate_volatility_based_size (account_balance entry_price : ℚ)
    (stop_loss_price : Option ℚ) (risk_percent : ℚ) : ℚ :=
  match stop_loss_price with
  | none => calculate_fixed_size account_balance risk_percent
  | some sl =>
    if sl ≤ 0 then calculate_fixed_size account_balance risk_percent
    else
      let risk_per_unit := |entry_price - sl|
      if risk_per_unit = 0 then calculate_fixed_size account_balance risk_percent
      else account_balance * (risk_percent / 100) / risk_per_unit

/-- PositionSizer.calculate_position_size (position_sizer.py:28-78). -/
def calculate_position_size (st : Settings) (account_balance entry_price : ℚ)
    (stop_loss_price : Option ℚ) (risk_percent : Option ℚ) : ℚ :=
  if account_balance ≤ 0 then 0
  else if entry_price ≤ 0 then 0
  else
    let rp := risk_percent.getD st.max_position_size_percent
    if st.position_sizing_method = "fixed" then
      calculate_fixed_size account_balance rp
    else if st.position_sizing_method = "volatility" then
      calculate_volatility_based_size account_balance entry_price stop_loss_price rp
    else
      calculate_fixed_size account_balance rp

/-- PositionSizer.validate_position_size (position_sizer.py:187-224)
with the hard-coded `min_notional = 10.0`. -/
def validate_position_size (st : Settings) (position_size account_balance : ℚ) : Bool :=
  if position_size ≤ 0 then false
  else if account_balance * (st.max_position_size_percent / 100) < position_size then false
  else if position_size < 10 then false
  else true

/-- Prepared bar rows as consumed by `BacktestEngine._process_bar`: the
`close` column, the row's index timestamp (`row.name`), the `signal`
column produced by the strategy, the value `strategy.validate_signal(row,
signal)` for this row, and the audit string `strategy.get_entry_reason(row)`.
This is exactly the interface through which the engine reads a row. -/
structure Bar where
  close : ℚ
  time : ℕ
  signal : Int
  valid : Bool
  entry_reason : String
deriving DecidableEq, Repr

/-- Open position record created by `BacktestEngine._check_entry`
(backtest_engine.py:168-177). -/
structure Position where
  entry_price : ℚ
  quantity : ℚ
  stop_loss : ℚ
  take_profit : ℚ
  entry_time : ℕ
  fees_paid : ℚ
  highest_price : ℚ
  entry_reason : String
deriving DecidableEq, Repr

/-- Closed trade record appended by `BacktestEngine._close_position`
(backtest_engine.py:251-264). -/
structure Trade where
  entry_price : ℚ
  exit_price : ℚ
  quantity : ℚ
  entry_time : ℕ
  exit_time : ℕ
  pnl : ℚ
  pnl_percent : ℚ
  fees : ℚ
  exit_reason : ExitReason
  entry_reason : String
deriving DecidableEq, Repr

/-- Constructor arguments of `BacktestEngine.__init__`. -/
structure Config where
  initial_capital : ℚ
  commission : ℚ
  slippage : ℚ
  settings : Settings
deriving DecidableEq, Repr

/-- Mutable engine state (backtest_engine.py:52-58) together with the
risk manager's realized-pnl tracker.  The backtest runs against one
symbol, so the `self.positions` dict is at most a singleton and is
modelled as an `Option Position`.  `RiskManager.update_daily_pnl` keys
its accumulator by wall-clock date; a single run executes within one
process instant, so the date-rollover branch is never taken and the
tracker is a plain accumulator here. -/
structure EngineState where
  balance : ℚ
  equity : ℚ
  position : Option Position
  trades : List Trade
  equity_curve : List ℚ
  dates : List ℕ
  daily_pnl : ℚ
deriving DecidableEq, Repr

/-- Engine state right after `BacktestEngine.__init__`. -/
def initState (cfg : Config) : EngineState :=
  { balance := cfg.initial_capital
    equity := cfg.initial_capital
    position := none
    trades := []
    equity_curve := []
    dates := []
    daily_pnl := 0 }

/-- BaseStrategy.should_enter (base_strategy.py:57-67): signal == BUY. -/
def should_enter (row : Bar) : Bool := row.signal == 1

/-- BaseStrategy.should_exit (base_strategy.py:69-80): signal == SELL. -/
def should_exit (row : Bar) : Bool := row.signal == -1

/-- BacktestEngine._update_equity (backtest_engine.py:277-286). -/
def update_equity (s : EngineState) (current_price : ℚ) : EngineState :=
  let unrealized_pnl :=
    match s.position with
    | none => 0
    | some p => current_price * p.quantity - p.entry_price * p.quantity
  { s with equity := s.balance + unrealized_pnl }

/-- BacktestEngine._close_position (backtest_engine.py:220-275).  If no
position is open for the symbol the method returns immediately and the
state is untouched.  (`pnl_percent` divides by `cost`; ℚ division by zero
yields 0, and `cost` is nonzero on every state the engine reaches.) -/
def close_position (cfg : Config) (row : Bar) (exit_reason : ExitReason)
    (s : EngineState) : EngineState :=
  match s.position with
  | none => s
  | some position =>
    let current_price := row.close
    let exit_price := current_price * (1 - cfg.slippage)
    let quantity := position.quantity
    let proceeds := exit_price * quantity
    let fees := proceeds * cfg.commission
    let net_proceeds := proceeds - fees
    let cost := position.entry_price * quantity
    let pnl := net_proceeds - cost
    let pnl_percent := pnl / cost * 100
    let trade : Trade :=
      { entry_price := position.entry_price
        exit_price := exit_price
        quantity := quantity
        entry_time := position.entry_time
        exit_time := row.time
        pnl := pnl
        pnl_percent := pnl_percent
        fees := position.fees_paid + fees
        exit_reason := exit_reason
        entry_reason := position.entry_reason }
    { s with
      balance := s.balance + net_proceeds
      trades := s.trades ++ [trade]
      daily_pnl := s.daily_pnl + pnl
      position := none }

/-- BacktestEngine._check_entry (backtest_engine.py:119-184). -/
def check_entry (cfg : Config) (row : Bar) (s : EngineState) : EngineState :=
  if !should_enter row then s
  else if !row.valid then s
  else
    let current_price := row.close
    let position_size := calculate_position_size cfg.settings s.balance current_price none none
    if !validate_position_size cfg.settings position_size s.balance then s
    else
      let quantity := position_size / current_price
      let entry_price := current_price * (1 + cfg.slippage)
      let cost := entry_price * quantity
      let fees := cost * cfg.commission
      let total_cost := cost + fees
      if s.balance < total_cost then s
      else
        let stop_loss := calculate_stop_loss cfg.settings entry_price "buy"
        let take_profit := calculate_take_profit cfg.settings entry_price "buy"
        { s with
          position := some
            { entry_price := entry_price
              quantity := quantity
              stop_loss := stop_loss
              take_profit := take_profit
              entry_time := row.time
              fees_paid := fees
              highest_price := entry_price
              entry_reason := row.entry_reason }
          balance := s.balance - total_cost }

/-- BacktestEngine._manage_position (backtest_engine.py:186-218).  The
position dict is mutated in place (highest price, trailing stop) before
the close checks, so the updated position is written back first.  The
`(true, none)` branch of `should_close_position` is unreachable. -/
def manage_position (cfg : Config) (row : Bar) (s : EngineState) : EngineState :=
  match s.position with
  | none => s
  | some position =>
    let current_price := row.close
    let p1 := { position with highest_price := max position.highest_price current_price }
    let p2 :=
      if cfg.settings.use_trailing_stop then
        { p1 with stop_loss :=
            update_trailing_stop cfg.settings p1.entry_price current_price p1.stop_loss "buy" }
      else p1
    let s2 := { s with position := some p2 }
    match should_close_position p2.entry_price current_price p2.stop_loss p2.take_profit "buy" with
    | (true, some r) => close_position cfg row r s2
    | (true, none) => s2
    | (false, _) =>
      if should_exit row then close_position cfg row .signal s2 else s2

/-- BacktestEngine._process_bar (backtest_engine.py:97-117). -/
def process_bar (cfg : Config) (s : EngineState) (row : Bar) : EngineState :=
  let s1 := update_equity s row.close
  let s2 := { s1 with
    equity_curve := s1.equity_curve ++ [s1.equity]
    dates := s1.dates ++ [row.time] }
  match s2.position with
  | some _ => manage_position cfg row s2
  | none => check_entry cfg row s2

/-- Bar-by-bar loop of `BacktestEngine.run` (backtest_engine.py:82-83). -/
def runBars (cfg : Config) (bars : List Bar) : EngineState :=
  bars.foldl (process_bar cfg) (initState cfg)

/-- BacktestEngine.run after the loop (backtest_engine.py:85-88): any
remaining open position is closed on the last row with reason MANUAL.
Performance metrics are computed from this final state. -/
def runFinal (cfg : Config) (bars : List Bar) : EngineState :=
  let s := runBars cfg bars
  match s.position with
  | none => s
  | some _ =>
    match bars.getLast? with
    | some last_row => close_position cfg last_row .manual s
    | none => s

/-- Python float values produced by `_calculate_results`: a finite value
or `np.inf`. -/
inductive PyFloat where
  | val (q : ℚ)
  | inf
deriving DecidableEq, Repr

/-- Sum of the pnl of the winning trades (`trades_df[trades_df.pnl > 0]`,
backtest_engine.py:299,311). -/
def gross_profit (trades : List Trade) : ℚ :=
  ((trades.filter fun t => 0 < t.pnl).map Trade.pnl).sum

/-- Absolute sum of the pnl of the losing trades
(`abs(losing_trades.pnl.sum())`, backtest_engine.py:300,312). -/
def gross_loss (trades : List Trade) : ℚ :=
  |((trades.filter fun t => t.pnl ≤ 0).map Trade.pnl).sum|

/-- The `profit_factor` entry of the results dict: `_empty_results`
returns 0.0 when no trades executed (backtest_engine.py:290-292,365),
otherwise `gross_profit / gross_loss if gross_loss > 0 else np.inf`
(backtest_engine.py:313). -/
def profit_factor_of (trades : List Trade) : PyFloat :=
  if trades = [] then .val 0
  else if 0 < gross_loss trades then .val (gross_profit trades / gross_loss trades)
  else .inf

/-- Profit factor reported by a backtest run. -/
def run_profit_factor (cfg : Config) (bars : List Bar) : PyFloat :=
  profit_factor_of (runFinal cfg bars).trades

/-- Keys of the dict literal returned by
`BacktestEngine._calculate_results` (backtest_engine.py:331-348);
`_empty_results` (352-371) has the same keys. -/
def resultKeys : List String :=
  ["initial_capital", "final_equity", "total_return", "total_pnl",
   "total_trades", "winning_trades", "losing_trades", "win_rate",
   "avg_win", "avg_loss", "profit_factor", "sharpe_ratio",
   "max_drawdown", "trades", "equity_curve", "dates"]

/-- Keys after `PerformanceMetrics.calculate_all_metrics`
(performance.py:35-45): the `{**results, ...}` merge adds eight keys to
the engine's record. -/
def allMetricsKeys : List String :=
  resultKeys ++
    ["total_fees", "largest_win", "largest_loss", "avg_trade_duration",
     "expectancy", "recovery_factor", "sortino_ratio", "calmar_ratio"]

/-- Pandas `>` on float series: false when either operand is NaN. -/
def seriesGT (a b : Option ℚ) : Bool :=
  match a, b with
  | some x, some y => decide (y < x)
  | _, _ => false

/-- Pandas `<=` on float series: false when either operand is NaN. -/
def seriesLE (a b : Option ℚ) : Bool :=
  match a, b with
  | some x, some y => decide (x ≤ y)
  | _, _ => false

/-- Mask `above = fast_ma > slow_ma` (indicators.py:217). -/
def maAbove (fast slow : List (Option ℚ)) (i : ℕ) : Bool :=
  seriesGT (fast.getD i none) (slow.getD i none)

/-- Mask `was_below = fast_ma.shift(1) <= slow_ma.shift(1)` (indicators.py:220):
at index 0 the shifted values are NaN and the comparison is false. -/
def maWasBelow (fast slow : List (Option ℚ)) (i : ℕ) : Bool :=
  match i with
  | 0 => false
  | j + 1 => seriesLE (fast.getD j none) (slow.getD j none)

/-- Mask `bullish = above & was_below` (indicators.py:223). -/
def maBullish (fast slow : List (Option ℚ)) (i : ℕ) : Bool :=
  maAbove fast slow i && maWasBelow fast slow i

/-- Series `was_below.shift(-1)` (indicators.py:226): the boolean mask
shifted one row backwards.  On a nonempty series pandas upcasts the
boolean dtype to object and fills the vacated last row with a missing
value (NaN); the empty series stays empty. -/
def shiftNegOne (mask : List Bool) : List (Option Bool) :=
  match mask with
  | [] => []
  | _ :: rest => rest.map some ++ [none]

/-- Unary `~` on an object-dtype series (indicators.py:226): applied
elementwise, and a missing value (a float NaN) has no `~`, so pandas
raises `TypeError: bad operand type for unary ~: 'float'` and the whole
expression aborts — modelled as `none`.  Consequently
`~was_below.shift(-1)` raises on every nonempty series. -/
def invertMask : List (Option Bool) → Option (List Bool)
  | [] => some []
  | none :: _ => none
  | some b :: rest =>
    match invertMask rest with
    | none => none
    | some bs => some ((!b) :: bs)

/-- detect_ma_crossover (indicators.py:202-233): builds the masks and
writes 1 on `bullish = above & was_below` and -1 on
`bearish = ~above & ~was_below.shift(-1)` over a zero series.
Evaluating the bearish mask inverts the shifted object-dtype series,
which raises TypeError (`none`) for every nonempty input; in the sole
non-raising case (the empty series) there are no rows.  Even apart from
the exception the bearish algebra is vacuous where defined:
`was_below.shift(-1)` at row `i` equals `fast_ma[i] <= slow_ma[i]`,
whose negation is `above[i]`, cancelling against `~above[i]`. -/
def detect_ma_crossover (fast slow : List (Option ℚ)) : Option (List Int) :=
  let was_below := (List.range fast.length).map (maWasBelow fast slow)
  match invertMask (shiftNegOne was_below) with
  | none => none
  | some not_wbs =>
    some ((List.range fast.length).map fun i =>
      if maBullish fast slow i then 1
      else if !maAbove fast slow i && not_wbs.getD i false then -1
      else 0)

/-- MACrossoverStrategy.generate_signals with no filters enabled
(ma_crossover.py:129-161): `signal` starts at HOLD and copies the
crossover values 1 and -1; the TypeError raised inside
`detect_ma_crossover` propagates out of `generate_signals`. -/
def generate_signals_nofilter (fast slow : List (Option ℚ)) : Option (List Int) :=
  (detect_ma_crossover fast slow).map fun cs =>
    cs.map fun c => if c = 1 then 1 else if c = -1 then -1 else 0

/-- Modelled from the spec (§4.4): the crossover signal as the spec
states it — +1 on the bar where the fast MA goes from ≤ slow (previous
bar) to > slow (current bar), -1 on the reverse transition, 0 otherwise
(defined where both series have values; reference definition for
comparison with `detect_ma_crossover`). -/
def crossoverSpec (fast slow : List (Option ℚ)) (i : ℕ) : Int :=
  match i with
  | 0 => 0
  | j + 1 =>
    match fast.getD j none, slow.getD j none, fast.getD (j+1) none, slow.getD (j+1) none with
    | some fp, some sp, some fc, some sc =>
      if fp ≤ sp ∧ sc < fc then 1
      else if sp < fp ∧ fc ≤ sc then -1
      else 0
    | _, _, _, _ => 0

/-- Modelled from the spec (§4.2/§8): the daily-loss gate as the spec
states it — block iff `daily_pnl` is below `-|daily_loss_limit_percent|`
percent of the account's capital (reference definition for comparison
with `is_daily_loss_limit_exceeded`). -/
def dailyLossLimitSpec (st : Settings) (capital daily_pnl : ℚ) : Bool :=
  daily_pnl < -(|st.daily_loss_limit_percent| / 100) * capital

/-- Placeholder trade for total list indexing. -/
def dummyTrade : Trade :=
  { entry_price := 0, exit_price := 0, quantity := 0, entry_time := 0, exit_time := 0,
    pnl := 0, pnl_percent := 0, fees := 0, exit_reason := .manual, entry_reason := "" }

/-- Placeholder position for total option access. -/
def dummyPosition : Position :=
  { entry_price := 0, quantity := 0, stop_loss := 0, take_profit := 0, entry_time := 0,
    fees_paid := 0, highest_price := 0, entry_reason := "" }

/-- Concrete run configuration: 10000 capital, 1% commission, no
slippage, default settings. -/
def cfgA : Config :=
  { initial_capital := 10000, commission := 1/100, slippage := 0, settings := defaultSettings }

/-- Concrete run configuration: 10000 capital, no commission, no
slippage, default settings. -/
def cfgB : Config :=
  { initial_capital := 10000, commission := 0, slippage := 0, settings := defaultSettings }

/-- Two bars: a validated BUY at close 100, then a flat HOLD bar at
close 100, leaving the position to be force-closed at the end. -/
def barsA : List Bar :=
  [{ close := 100, time := 0, signal := 1, valid := true, entry_reason := "MA entry" },
   { close := 100, time := 1, signal := 0, valid := true, entry_reason := "MA entry" }]

/-- Relation actually maintained by `_close_position` between a recorded
trade's pnl and its prices: the pnl nets out only the exit-side fee
(`proceeds * commission`), not the entry fee included in `fees`. -/
def tradePnlInv (commission : ℚ) (t : Trade) : Prop :=
  t.pnl = (t.exit_price - t.entry_price) * t.quantity
            - t.exit_price * t.quantity * commission

/-- Stop-loss values over consecutive bars of an open long position:
each bar the engine recomputes the stop through the trailing ratchet
(backtest_engine.py:195-201 feeding risk_manager.py:83-101). -/
def trailStops (st : Settings) (entry_price current_stop : ℚ) : List ℚ → List ℚ
  | [] => []
  | c :: cs =>
    let s1 := update_trailing_stop st entry_price c current_stop "buy"
    s1 :: trailStops st entry_price s1 cs

/-- Position open after the loop of `cfgA` on `barsA`: entry at 100 with
1% fee (10), quantity 10, initial stop 98 ratcheted to 98.5 by the
trailing update on the second bar. -/
def posAval : Position :=
  { entry_price := 100, quantity := 10, stop_loss := 197/2, take_profit := 104,
    entry_time := 0, fees_paid := 10, highest_price := 100, entry_reason := "MA entry" }

/-- Engine state after the bar loop of `cfgA` on `barsA`. -/
def loopA : EngineState :=
  { balance := 8990, equity := 8990, position := some posAval, trades := [],
    equity_curve := [10000, 8990], dates := [0, 1], daily_pnl := 0 }

/-- The forced-close trade of `cfgA` on `barsA`: flat price, so the pnl
is exactly the exit fee (-10) while the recorded fees are 20. -/
def tradeAval : Trade :=
  { entry_price := 100, exit_price := 100, quantity := 10, entry_time := 0, exit_time := 1,
    pnl := -10, pnl_percent := -1, fees := 20, exit_reason := .manual,
    entry_reason := "MA entry" }

/-- Final engine state of `cfgA` on `barsA`. -/
def finalA : EngineState :=
  { balance := 9980, equity := 8990, position := none, trades := [tradeAval],
    equity_curve := [10000, 8990], dates := [0, 1], daily_pnl := -10 }

/-- The forced-close trade of `cfgB` on `barsA`: no fees, flat price, so
the pnl is exactly 0 — a "losing" trade by the code's `pnl <= 0` split. -/
def tradeBval : Trade :=
  { entry_price := 100, exit_price := 100, quantity := 10, entry_time := 0, exit_time := 1,
    pnl := 0, pnl_percent := 0, fees := 0, exit_reason := .manual,
    entry_reason := "MA entry" }

/-- Final engine state of `cfgB` on `barsA`. -/
def finalB : EngineState :=
  { balance := 10000, equity := 9000, position := none, trades := [tradeBval],
    equity_curve := [10000, 9000], dates := [0, 1], daily_pnl := 0 }

/-- Probe row used to exercise one further `_process_bar` step on `loopA`. -/
def rowX : Bar :=
  { close := 100, time := 2, signal := 0, valid := true, entry_reason := "MA entry" }

theorem runBarsA_eq : runBars cfgA barsA = loopA := by
  norm_num [runBars, List.foldl, process_bar, update_equity, manage_position,
    check_entry, close_position, initState, should_enter, should_exit,
    validate_position_size, calculate_position_size, calculate_fixed_size,
    calculate_stop_loss, calculate_take_profit, update_trailing_stop,
    should_close_position, defaultSettings, cfgA, barsA, loopA, posAval]

theorem runFinalA_eq : runFinal cfgA barsA = finalA := by
  simp only [runFinal, runBarsA_eq]
  norm_num [loopA, posAval, close_position, barsA, cfgA, finalA, tradeAval,
    List.getLast?]

theorem runFinalB_eq : runFinal cfgB barsA = finalB := by
  norm_num [runFinal, runBars, List.foldl, process_bar, update_equity, manage_position,
    check_entry, close_position, initState, should_enter, should_exit,
    validate_position_size, calculate_position_size, calculate_fixed_size,
    calculate_stop_loss, calculate_take_profit, update_trailing_stop,
    should_close_position, defaultSettings, cfgB, barsA, finalB, tradeBval,
    List.getLast?]

theorem processBarX_eq : (process_bar cfgA loopA rowX).position = some posAval := by
  norm_num [process_bar, update_equity, manage_position, close_position,
    should_enter, should_exit, update_trailing_stop, should_close_position,
    defaultSettings, cfgA, loopA, posAval, rowX]

theorem close_position_curve (cfg : Config) (row : Bar) (r : ExitReason)
    (s : EngineState) :
    (close_position cfg row r s).equity_curve = s.equity_curve := by
  cases h : s.position <;> simp [close_position, h]

theorem check_entry_curve (cfg : Config) (row : Bar) (s : EngineState) :
    (check_entry cfg row s).equity_curve = s.equity_curve := by
  simp only [check_entry]
  split_ifs <;> rfl

theorem check_entry_trades (cfg : Config) (row : Bar) (s : EngineState) :
    (check_entry cfg row s).trades = s.trades := by
  simp only [check_entry]
  split_ifs <;> rfl

theorem manage_position_curve (cfg : Config) (row : Bar) (s : EngineState) :
    (manage_position cfg row s).equity_curve = s.equity_curve := by
  cases h : s.position with
  | none => simp [manage_position, h]
  | some p =>
    simp only [manage_position, h]
    split
    · rw [close_position_curve]
    · rfl
    · split
      · rw [close_position_curve]
      · rfl

theorem close_position_trades_inv (cfg : Config) (row : Bar) (r : ExitReason)
    (s : EngineState) :
    ∀ t ∈ (close_position cfg row r s).trades,
      t ∈ s.trades ∨ tradePnlInv cfg.commission t := by
  cases h : s.position with
  | none => intro t ht; exact Or.inl (by simpa [close_position, h] using ht)
  | some p =>
    intro t ht
    simp only [close_position, h] at ht
    rcases List.mem_append.mp ht with h1 | h2
    · exact Or.inl h1
    · right
      rw [List.mem_singleton.mp h2]
      simp only [tradePnlInv]
      ring

theorem manage_position_trades_inv (cfg : Config) (row : Bar)
    (s : EngineState) :
    ∀ t ∈ (manage_position cfg row s).trades,
      t ∈ s.trades ∨ tradePnlInv cfg.commission t := by
  cases h : s.position with
  | none => intro t ht; exact Or.inl (by simpa [manage_position, h] using ht)
  | some p =>
    intro t ht
    simp only [manage_position, h] at ht
    revert ht
    split
    · intro ht
      rcases close_position_trades_inv cfg row _ _ t ht with h1 | h2
      · exact Or.inl (by simpa using h1)
      · exact Or.inr h2
    · intro ht; exact Or.inl (by simpa using ht)
    · split
      · intro ht
        rcases close_position_trades_inv cfg row _ _ t ht with h1 | h2
        · exact Or.inl (by simpa using h1)
        · exact Or.inr h2
      · intro ht; exact Or.inl (by simpa using ht)

theorem process_bar_trades_inv (cfg : Config) (s : EngineState) (row : Bar) :
    ∀ t ∈ (process_bar cfg s row).trades,
      t ∈ s.trades ∨ tradePnlInv cfg.commission t := by
  intro t ht
  simp only [process_bar, update_equity] at ht
  revert ht
  split
  · intro ht
    rcases manage_position_trades_inv cfg row _ t ht with h1 | h2
    · exact Or.inl h1
    · exact Or.inr h2
  · intro ht
    rw [check_entry_trades] at ht
    exact Or.inl ht

theorem foldl_trades_inv (cfg : Config) (bars : List Bar) :
    ∀ s : EngineState,
      (∀ t ∈ s.trades, tradePnlInv cfg.commission t) →
      ∀ t ∈ (List.foldl (process_bar cfg) s bars).trades,
        tradePnlInv cfg.commission t := by
  induction bars with
  | nil => intro s hs; simpa using hs
  | cons b bs ih =>
    intro s hs
    refine ih (process_bar cfg s b) ?_
    intro t ht
    rcases process_bar_trades_inv cfg s b t ht with h1 | h2
    · exact hs t h1
    · exact h2

theorem runFinal_trades_inv (cfg : Config) (bars : List Bar) :
    ∀ t ∈ (runFinal cfg bars).trades, tradePnlInv cfg.commission t := by
  intro t ht
  have hloop : ∀ u ∈ (runBars cfg bars).trades, tradePnlInv cfg.commission u :=
    foldl_trades_inv cfg bars (initState cfg) (by simp [initState])
  revert ht
  simp only [runFinal]
  split
  · exact fun ht => hloop t ht
  · split
    · intro ht
      rcases close_position_trades_inv cfg _ _ _ t ht with h1 | h2
      · exact hloop t h1
      · exact h2
    · exact fun ht => hloop t ht

theorem update_trailing_stop_le (st : Settings) (e c s0 : ℚ) :
    s0 ≤ update_trailing_stop st e c s0 "buy" := by
  simp only [update_trailing_stop]
  split_ifs with h1
  · exact le_refl s0
  · exact le_max_left _ _

theorem trailStops_chain (st : Settings) (e : ℚ) (prices : List ℚ) :
    ∀ s0 : ℚ, List.Chain' (· ≤ ·) (s0 :: trailStops st e s0 prices) := by
  induction prices with
  | nil => intro s0; simp [trailStops]
  | cons c cs ih =>
    intro s0
    simp only [trailStops]
    rw [List.chain'_cons]
    exact ⟨update_trailing_stop_le st e c s0, ih _⟩

theorem process_bar_stop_mono (cfg : Config) (s : EngineState) (row : Bar)
    (p p' : Position) (hp : s.position = some p)
    (hp' : (process_bar cfg s row).position = some p') :
    p.stop_loss ≤ p'.stop_loss := by
  simp only [process_bar, update_equity, hp] at hp'
  simp only [manage_position] at hp'
  revert hp'
  split
  · intro hp'
    simp [close_position] at hp'
  · intro hp'
    simp only [Option.some.injEq] at hp'
    subst hp'
    split_ifs
    · exact update_trailing_stop_le cfg.settings p.entry_price row.close p.stop_loss
    · exact le_refl _
  · split
    · intro hp'
      simp [close_position] at hp'
    · intro hp'
      simp only [Option.some.injEq] at hp'
      subst hp'
      split_ifs
      · exact update_trailing_stop_le cfg.settings p.entry_price row.close p.stop_loss
      · exact le_refl _

theorem process_bar_curve_exists (cfg : Config) (s : EngineState) (row : Bar) :
    ∃ q : ℚ, (process_bar cfg s row).equity_curve = s.equity_curve ++ [q] := by
  refine ⟨(update_equity s row.close).equity, ?_⟩
  simp only [process_bar]
  split
  · rw [manage_position_curve]; simp [update_equity]
  · rw [check_entry_curve]; simp [update_equity]

theorem process_bar_init_curve (cfg : Config) (row : Bar) :
    (process_bar cfg (initState cfg) row).equity_curve = [cfg.initial_capital] := by
  simp [process_bar, update_equity, initState, check_entry_curve]

theorem foldl_curve_length (cfg : Config) (bars : List Bar) :
    ∀ s : EngineState,
      (List.foldl (process_bar cfg) s bars).equity_curve.length
        = s.equity_curve.length + bars.length := by
  induction bars with
  | nil => intro s; simp
  | cons b bs ih =>
    intro s
    obtain ⟨q, hq⟩ := process_bar_curve_exists cfg s b
    rw [List.foldl_cons, ih, hq]
    simp only [List.length_append, List.length_cons, List.length_nil]
    omega

theorem foldl_curve_prefix (cfg : Config) (bars : List Bar) :
    ∀ s : EngineState, ∃ l : List ℚ,
      (List.foldl (process_bar cfg) s bars).equity_curve = s.equity_curve ++ l := by
  induction bars with
  | nil => intro s; exact ⟨[], by simp⟩
  | cons b bs ih =>
    intro s
    obtain ⟨l, hl⟩ := ih (process_bar cfg s b)
    obtain ⟨q, hq⟩ := process_bar_curve_exists cfg s b
    refine ⟨q :: l, ?_⟩
    rw [List.foldl_cons, hl, hq]
    simp

theorem runFinal_curve (cfg : Config) (bars : List Bar) :
    (runFinal cfg bars).equity_curve = (runBars cfg bars).equity_curve := by
  simp only [runFinal]
  split
  · rfl
  · split
    · rw [close_position_curve]
    · rfl

theorem invertMask_none (l : List (Option Bool)) (h : none ∈ l) :
    invertMask l = none := by
  induction l with
  | nil => simp at h
  | cons x xs ih =>
    cases x with
    | none => rfl
    | some b =>
      have h2 : none ∈ xs := by
        rcases List.mem_cons.mp h with h1 | h2
        · exact absurd h1.symm (by simp)
        · exact h2
      simp only [invertMask, ih h2]

theorem none_mem_shiftNegOne (mask : List Bool) (h : mask ≠ []) :
    none ∈ shiftNegOne mask := by
  cases mask with
  | nil => exact absurd rfl h
  | cons b rest => simp [shiftNegOne]

theorem detect_ma_crossover_raises (fast slow : List (Option ℚ)) (h : fast ≠ []) :
    detect_ma_crossover fast slow = none := by
  have hwb : ((List.range fast.length).map (maWasBelow fast slow)) ≠ [] := by
    simp only [ne_eq, List.map_eq_nil_iff, List.range_eq_nil, List.length_eq_zero]
    exact h
  simp only [detect_ma_crossover]
  rw [invertMask_none _ (none_mem_shiftNegOne _ hwb)]

theorem profit_factor_inf_iff (trades : List Trade) :
    profit_factor_of trades = PyFloat.inf ↔
      trades ≠ [] ∧ ((trades.filter fun t => t.pnl ≤ 0).map Trade.pnl).sum = 0 := by
  have habs : gross_loss trades
      = |((trades.filter fun t => t.pnl ≤ 0).map Trade.pnl).sum| := rfl
  unfold profit_factor_of
  split_ifs with h1 h2
  · simp [h1]
  · constructor
    · intro hv; exact absurd hv (by simp)
    · rintro ⟨hne, hs⟩
      rw [habs, hs] at h2
      simp at h2
  · refine ⟨fun _ => ⟨h1, ?_⟩, fun _ => rfl⟩
    have h0 : (0:ℚ) ≤ gross_loss trades := habs ▸ abs_nonneg _
    have hz : gross_loss trades = 0 := le_antisymm (not_lt.mp h2) h0
    rw [habs] at hz
    exact abs_eq_zero.mp hz

/-- C1, counterexample: on a concrete run (1% commission, zero slippage,
entry and forced exit at close 100) the recorded trade has `fees = 20`
(10 entry + 10 exit) but `pnl = -10`, whereas the claimed invariant
`pnl = (exit_price - entry_price) * quantity - total_fees` would give
-20: the code's pnl nets out only the exit-side fee. -/
theorem C1_counterexample :
    tradeAval ∈ (runFinal cfgA barsA).trades ∧
    tradeAval.fees = 20 ∧
    tradeAval.pnl = -10 ∧
    tradeAval.pnl ≠ (tradeAval.exit_price - tradeAval.entry_price) * tradeAval.quantity
      - tradeAval.fees := by
  refine ⟨?_, rfl, rfl, by norm_num [tradeAval]⟩
  rw [runFinalA_eq]
  simp [finalA]

/-- C1, amended: for every trade appended to the ledger by a run,
`pnl = (exit_price - entry_price) * quantity - exit_fee` where
`exit_fee = exit_price * quantity * commission` is the exit-side fee
alone; the recorded `fees` field additionally contains the entry fee,
which the pnl does not subtract. -/
theorem C1_pnl_nets_exit_fee_only (cfg : Config) (bars : List Bar) (t : Trade)
    (ht : t ∈ (runFinal cfg bars).trades) :
    t.pnl = (t.exit_price - t.entry_price) * t.quantity
      - t.exit_price * t.quantity * cfg.commission :=
  runFinal_trades_inv cfg bars t ht

/-- C1 witness: the amended invariant evaluated on the concrete trade of
`cfgA` on `barsA`. -/
theorem C1_pnl_nets_exit_fee_only_witness :
    tradeAval.pnl = (tradeAval.exit_price - tradeAval.entry_price) * tradeAval.quantity
      - tradeAval.exit_price * tradeAval.quantity * cfgA.commission :=
  C1_pnl_nets_exit_fee_only cfgA barsA tradeAval (by rw [runFinalA_eq]; simp [finalA])

/-- C2, code bug: on `fast_ma = [2, 1, 1]`, `slow_ma = [1, 2, 2]` the
fast MA crosses from above to below at index 1, so the docstring (and
the claim) require signal -1 there; instead `detect_ma_crossover`
aborts with a TypeError (`none`) when the bearish-mask expression
inverts the shifted object-dtype series — as it does on every nonempty
input (`detect_ma_crossover_raises`) — so no per-bar signal is
produced at all.  The spec-modelled reference signal is -1 at index 1. -/
theorem C2_bearish_crossover_never_fires :
    detect_ma_crossover [some 2, some 1, some 1] [some 1, some 2, some 2]
      = none ∧
    crossoverSpec [some 2, some 1, some 1] [some 1, some 2, some 2] 1 = -1 := by
  constructor
  · decide
  · decide

/-- C3, code bug: with the default 5(%) daily loss limit, a daily pnl of
-100 on a 10000 account (only 1% of capital, well above the claimed
-500 threshold) already makes `can_open_position` return false with the
daily-limit reason, because `_is_daily_loss_limit_exceeded` compares the
currency amount `daily_pnl` against the bare number
`-abs(daily_loss_limit_percent)` = -5 instead of against that percentage
of capital.  The spec's concrete -600 scenario happens to agree with the
code since -600 is below both thresholds. -/
theorem C3_daily_limit_unit_bug :
    can_open_position defaultSettings (-100) false 0 10000 1000
      = (false, "Daily loss limit exceeded") ∧
    dailyLossLimitSpec defaultSettings 10000 (-100) = false ∧
    can_open_position defaultSettings (-600) false 0 10000 1000
      = (false, "Daily loss limit exceeded") := by
  refine ⟨?_, ?_, ?_⟩ <;>
    norm_num [can_open_position, is_daily_loss_limit_exceeded, dailyLossLimitSpec,
      defaultSettings]

/-- C4, counterexample: the results record returned by the engine's run
does not contain the `sortino_ratio` key (nor the other extended
metrics); those are only added by the separate
`PerformanceMetrics.calculate_all_metrics` post-processor. -/
theorem C4_counterexample : "sortino_ratio" ∉ resultKeys := by
  simp [resultKeys]

/-- C4, amended: the engine's results record carries only the basic
fields (with key `total_return`, not `total_return_percent`, and `dates`,
not `timestamps`); `sortino_ratio`, `calmar_ratio`, `recovery_factor`,
`expectancy`, `total_fees` and `avg_trade_duration` appear only in the
record produced by `PerformanceMetrics.calculate_all_metrics`. -/
theorem C4_extended_metrics_only_in_post_processor :
    "sortino_ratio" ∈ allMetricsKeys ∧ "calmar_ratio" ∈ allMetricsKeys ∧
    "recovery_factor" ∈ allMetricsKeys ∧ "expectancy" ∈ allMetricsKeys ∧
    "total_fees" ∈ allMetricsKeys ∧ "avg_trade_duration" ∈ allMetricsKeys ∧
    "sortino_ratio" ∉ resultKeys ∧ "calmar_ratio" ∉ resultKeys ∧
    "recovery_factor" ∉ resultKeys ∧ "expectancy" ∉ resultKeys ∧
    "total_fees" ∉ resultKeys ∧ "avg_trade_duration" ∉ resultKeys ∧
    "initial_capital" ∈ resultKeys ∧ "final_equity" ∈ resultKeys ∧
    "total_return" ∈ resultKeys ∧ "total_return_percent" ∉ resultKeys ∧
    "total_pnl" ∈ resultKeys ∧ "total_trades" ∈ resultKeys ∧
    "winning_trades" ∈ resultKeys ∧ "losing_trades" ∈ resultKeys ∧
    "win_rate" ∈ resultKeys ∧ "avg_win" ∈ resultKeys ∧
    "avg_loss" ∈ resultKeys ∧ "profit_factor" ∈ resultKeys ∧
    "sharpe_ratio" ∈ resultKeys ∧ "max_drawdown" ∈ resultKeys ∧
    "trades" ∈ resultKeys ∧ "equity_curve" ∈ resultKeys ∧
    "dates" ∈ resultKeys ∧ "timestamps" ∉ resultKeys := by
  simp [resultKeys, allMetricsKeys]

/-- C5: with the trailing stop enabled, `update_trailing_stop` for a
long returns `max(current_stop, current_price * (1 - trail_pct))`; the
resulting stop sequence over any price path is monotonically
non-decreasing, and one engine bar step (`_process_bar`) never lowers
the stop of a position that stays open. -/
theorem C5_trailing_stop_ratchet (st : Settings) (e c s0 : ℚ) (prices : List ℚ)
    (cfg : Config) (s : EngineState) (row : Bar) (p p' : Position)
    (hflag : st.use_trailing_stop = true)
    (hp : s.position = some p)
    (hp' : (process_bar cfg s row).position = some p') :
    update_trailing_stop st e c s0 "buy"
      = max s0 (c * (1 - st.trailing_stop_percent / 100)) ∧
    List.Chain' (· ≤ ·) (s0 :: trailStops st e s0 prices) ∧
    p.stop_loss ≤ p'.stop_loss := by
  refine ⟨?_, trailStops_chain st e prices s0, process_bar_stop_mono cfg s row p p' hp hp'⟩
  simp [update_trailing_stop, hflag]

/-- C5 witness: the ratchet equation at stop 98 and price 110, the chain
over prices [105, 110], and one concrete engine step on the open
position of `loopA`. -/
theorem C5_trailing_stop_ratchet_witness :
    update_trailing_stop defaultSettings 100 110 98 "buy"
      = max 98 (110 * (1 - defaultSettings.trailing_stop_percent / 100)) ∧
    List.Chain' (· ≤ ·) ((98:ℚ) :: trailStops defaultSettings 100 98 [105, 110]) ∧
    posAval.stop_loss ≤ posAval.stop_loss :=
  C5_trailing_stop_ratchet defaultSettings 100 110 98 [105, 110] cfgA loopA rowX
    posAval posAval rfl rfl processBarX_eq

/-- C6: when a position is still open after the bar loop, the final
results contain exactly one additional trade, its exit reason is the
distinguished MANUAL (forced close) reason and its exit time is the last
bar's timestamp; this close happens on the engine state from which the
metrics are then computed. -/
theorem C6_forced_close_at_end (cfg : Config) (bars : List Bar) (p : Position)
    (h : bars ≠ []) (hp : (runBars cfg bars).position = some p) :
    (runFinal cfg bars).trades.length = (runBars cfg bars).trades.length + 1 ∧
    ((runFinal cfg bars).trades.getLast?).map Trade.exit_reason
      = some ExitReason.manual ∧
    ((runFinal cfg bars).trades.getLast?).map Trade.exit_time
      = some (bars.getLast h).time := by
  have hl : bars.getLast? = some (bars.getLast h) := List.getLast?_eq_getLast bars h
  simp only [runFinal, hp, hl]
  simp only [close_position, hp]
  refine ⟨by simp, by simp [List.getLast?_concat], by simp [List.getLast?_concat]⟩

/-- C6 witness: the run of `cfgA` on `barsA` leaves a position open and
force-closes it on the last bar (time 1) with reason MANUAL. -/
theorem C6_forced_close_at_end_witness :
    (runFinal cfgA barsA).trades.length = (runBars cfgA barsA).trades.length + 1 ∧
    ((runFinal cfgA barsA).trades.getLast?).map Trade.exit_reason
      = some ExitReason.manual ∧
    ((runFinal cfgA barsA).trades.getLast?).map Trade.exit_time
      = some ((barsA.getLast (by simp [barsA])).time) :=
  C6_forced_close_at_end cfgA barsA posAval (by simp [barsA])
    (by rw [runBarsA_eq]; rfl)

/-- C7: on a non-empty bar sequence the equity curve has exactly one
entry per bar and its first entry is the initial capital (no position
exists before the first bar is processed). -/
theorem C7_equity_curve_shape (cfg : Config) (bars : List Bar) (h : bars ≠ []) :
    (runFinal cfg bars).equity_curve.length = bars.length ∧
    (runFinal cfg bars).equity_curve.getD 0 0 = cfg.initial_capital := by
  rw [runFinal_curve]
  constructor
  · simp only [runBars]
    rw [foldl_curve_length]
    simp [initState]
  · cases bars with
    | nil => exact absurd rfl h
    | cons b bs =>
      simp only [runBars, List.foldl_cons]
      obtain ⟨l, hl⟩ := foldl_curve_prefix cfg bs (process_bar cfg (initState cfg) b)
      rw [hl, process_bar_init_curve]
      simp

/-- C7 witness: the run of `cfgA` on its two bars yields an equity curve
of length 2 starting at the initial capital. -/
theorem C7_equity_curve_shape_witness :
    (runFinal cfgA barsA).equity_curve.length = barsA.length ∧
    (runFinal cfgA barsA).equity_curve.getD 0 0 = cfgA.initial_capital :=
  C7_equity_curve_shape cfgA barsA (by simp [barsA])

/-- C8, counterexample: the fee-free flat run produces exactly one trade
with pnl 0; the code reports `profit_factor = inf` although there is no
winning trade, refuting the claimed "iff there exists a winning trade". -/
theorem C8_counterexample :
    run_profit_factor cfgB barsA = PyFloat.inf ∧
    ((runFinal cfgB barsA).trades.filter fun t => 0 < t.pnl) = [] := by
  constructor
  · rw [run_profit_factor, runFinalB_eq]
    norm_num [finalB, profit_factor_of, gross_loss, gross_profit, tradeBval]
  · rw [runFinalB_eq]
    norm_num [finalB, tradeBval, List.filter]

/-- C8, amended: `profit_factor` is +inf iff the run produced at least
one trade and the total pnl of its losing trades (pnl ≤ 0) is zero —
irrespective of whether any winning trade exists; with no trades at all
it is 0. -/
theorem C8_profit_factor_inf_characterization (cfg : Config) (bars : List Bar) :
    (run_profit_factor cfg bars = PyFloat.inf ↔
      (runFinal cfg bars).trades ≠ [] ∧
      (((runFinal cfg bars).trades.filter fun t => t.pnl ≤ 0).map Trade.pnl).sum = 0) ∧
    ((runFinal cfg bars).trades = [] → run_profit_factor cfg bars = PyFloat.val 0) := by
  refine ⟨profit_factor_inf_iff _, fun hempty => ?_⟩
  rw [run_profit_factor, profit_factor_of, if_pos hempty]

/-- C8 witness: the characterization instantiated on the fee-free flat
run. -/
theorem C8_profit_factor_inf_characterization_witness :
    (run_profit_factor cfgB barsA = PyFloat.inf ↔
      (runFinal cfgB barsA).trades ≠ [] ∧
      (((runFinal cfgB barsA).trades.filter fun t => t.pnl ≤ 0).map Trade.pnl).sum = 0) ∧
    ((runFinal cfgB barsA).trades = [] → run_profit_factor cfgB barsA = PyFloat.val 0) :=
  C8_profit_factor_inf_characterization cfgB barsA

/-- C9: the simulation is a pure function of its inputs — identical bar
sequence and configuration (strategy signals and risk settings included)
give identical final state (equity curve and trade ledger) and identical
derived metrics. -/
theorem C9_deterministic (cfg1 cfg2 : Config) (bars1 bars2 : List Bar)
    (hc : cfg1 = cfg2) (hb : bars1 = bars2) :
    runFinal cfg1 bars1 = runFinal cfg2 bars2 ∧
    run_profit_factor cfg1 bars1 = run_profit_factor cfg2 bars2 := by
  subst hc
  subst hb
  exact ⟨rfl, rfl⟩

/-- C9 witness: determinism instantiated on the concrete run. -/
theorem C9_deterministic_witness :
    runFinal cfgA barsA = runFinal cfgA barsA ∧
    run_profit_factor cfgA barsA = run_profit_factor cfgA barsA :=
  C9_deterministic cfgA cfgA barsA barsA rfl rfl

/-- C10: closing a position when none is open is a no-op — the whole
engine state (balance, ledger, position store, equity curve, dates,
daily pnl) is returned unchanged. -/
theorem C10_close_without_position_noop (cfg : Config) (row : Bar)
    (r : ExitReason) (s : EngineState) (h : s.position = none) :
    close_position cfg row r s = s := by
  simp [close_position, h]

/-- C10 witness: the no-op close on the freshly initialized engine. -/
theorem C10_close_without_position_noop_witness :
    close_position cfgA rowX ExitReason.manual (initState cfgA) = initState cfgA :=
  C10_close_without_position_noop cfgA rowX ExitReason.manual (initState cfgA) rfl

end CryptoBot
